/-
Verification of the kuala-api backend-for-frontend handlers.

This file shallowly embeds the request handlers of the kuala-api
repository (supabase/functions/kuala/handlers) in Lean 4 and proves the
spec claims about them.  Downstream HTTP interactions are modelled as
explicit outcome values passed to each handler; every handler also
returns the list of downstream calls it issued, so that fail-fast
properties ("no downstream call is made") are provable.

JavaScript truthiness of optional string / number fields (the `!x` and
`x || d` idioms pervasive in the source) is modelled explicitly by
`strFalsy`, `jsOrStr` and `jsOrNat`: `none` models `undefined`/`null`,
and an empty string (resp. the number 0) is falsy.
-/
import Mathlib

set_option maxHeartbeats 1000000

namespace Kuala

/-! ## JavaScript-semantics helpers -/

/-- Truthiness test for an optional string field: `!x` in JS is true for
`undefined`, `null` and the empty string. -/
def strFalsy : Option String → Bool
  | none => true
  | some s => s.isEmpty

/-- The JS expression `x || d` for an optional string `x`. -/
def jsOrStr (x : Option String) (d : String) : String :=
  match x with
  | none => d
  | some s => if s.isEmpty then d else s

/-- The JS expression `x || d` for an optional number `x` (0 is falsy). -/
def jsOrNat (x : Option Nat) (d : Nat) : Nat :=
  match x with
  | none => d
  | some n => if n = 0 then d else n

/-- The `Response.ok` flag of the fetch API: status in the range 200-299. -/
def okStatus (status : Nat) : Bool :=
  200 ≤ status && status < 300

/-- Substring search on character lists, used to model `String.includes`. -/
def charsInclude (needle : List Char) : List Char → Bool
  | [] => needle.isEmpty
  | c :: cs => needle.isPrefixOf (c :: cs) || charsInclude needle cs

/-- The JS expression `s.includes(sub)`: substring containment. -/
def strIncludes (s sub : String) : Bool :=
  charsInclude sub.data s.data

/-- Character-level lowercasing, modelling `s.toLowerCase()`. -/
def strToLower (s : String) : String :=
  String.mk (s.data.map Char.toLower)

/-- Outcome of one downstream `fetch` call: either the promise rejected
(network error, or a later `.json()` parse failure inside the same
`try`), or a response arrived with the given status and parsed body. -/
inductive FetchOutcome (α : Type) where
  | throw
  | resp (status : Nat) (body : α)
deriving DecidableEq, Repr

/-- The uniform error shape `{code, message}` used by every handler. -/
structure ErrorResponse where
  code : String
  message : String
deriving DecidableEq, Repr

/-! ## Catalog data model (plans handler)

Types follow `_shared/types`: only the fields the handlers read are
kept (e.g. `fixedPrices`, `duration` and `usages` of a phase are never
read by the transformer and are omitted).  Fields that the code guards
with truthiness checks (`prettyName`, `included`) are `Option`s. -/

structure KillBillPrice where
  currency : String
  value : Int
deriving DecidableEq, Repr

structure KillBillPhase where
  type : String
  prices : List KillBillPrice
deriving DecidableEq, Repr

structure KillBillPlan where
  name : String
  phases : List KillBillPhase
deriving DecidableEq, Repr

structure KillBillProduct where
  name : String
  prettyName : Option String
  plans : List KillBillPlan
  included : Option (List String)
deriving DecidableEq, Repr

structure KillBillPriceList where
  name : String
  plans : List String
deriving DecidableEq, Repr

structure KillBillCatalog where
  products : List KillBillProduct
  priceLists : List KillBillPriceList
deriving DecidableEq, Repr

structure Price where
  currency : String
  amount : Int
deriving DecidableEq, Repr

structure ContactUs where
  email : String
  phone : String
  body : String
deriving DecidableEq, Repr

structure Plan where
  id : String
  name : String
  tier : String
  features : List String
  prices : List Price
  selectable : Bool
  contactUs : Option ContactUs
deriving DecidableEq, Repr

structure EnterpriseContactConfig where
  email : String
  phone : String
  body : String
deriving DecidableEq, Repr

/-- The fixed product-name-to-tier mapping `PRODUCT_TIER_MAPPING`. -/
def PRODUCT_TIER_MAPPING (name : String) : Option String :=
  if name = "Free" then some "free"
  else if name = "Basic" then some "basic"
  else if name = "Premium" then some "premium"
  else if name = "Enterprise" then some "enterprise"
  else none

/-- A word character in the sense of the JS regex `\w`. -/
def isWordChar (c : Char) : Bool :=
  c.isAlphanum || c == '_'

/-- Uppercases every character standing at a word boundary, i.e. the JS
`replace(/\b\w/g, l => l.toUpperCase())`.  The boolean argument records
whether the previous character was a word character. -/
def upperWordStarts : Bool → List Char → List Char
  | _, [] => []
  | prevWord, c :: cs =>
    (if !prevWord && isWordChar c then c.toUpper else c) ::
      upperWordStarts (isWordChar c) cs

/-- Character-level replacement of every hyphen by a space, modelling
the global replace of the hyphen pattern. -/
def hyphensToSpaces (s : String) : String :=
  String.mk (s.data.map (fun c => if c == '-' then ' ' else c))

/-- Feature formatting: replace every hyphen with a space, then
uppercase every word-boundary character. -/
def humanizeFeature (feature : String) : String :=
  String.mk (upperWordStarts false (hyphensToSpaces feature).data)

/-- Builds the transformed `Plan` object pushed by the inner loop of
`fetchKillBillPlans` once the skip conditions have been passed. -/
def buildPlan (cfg : EnterpriseContactConfig) (product : KillBillProduct)
    (plan : KillBillPlan) (evergreenPhase : KillBillPhase) : Plan :=
  let tier := jsOrStr (PRODUCT_TIER_MAPPING product.name) "basic"
  let features :=
    match product.included with
    | none => []
    | some included =>
      if included.length > 0 then included.map humanizeFeature else []
  let prices := evergreenPhase.prices.map
    (fun price => { currency := price.currency, amount := price.value })
  { id := plan.name
    name := jsOrStr product.prettyName product.name
    tier := tier
    features := features
    prices := prices
    selectable := tier != "enterprise"
    contactUs :=
      if tier = "enterprise" then
        some { email := cfg.email, phone := cfg.phone, body := cfg.body }
      else none }

/-- One step of the inner `forEach` of the transformer: `none` when the
plan is skipped (no EVERGREEN phase, or not in the price list named
DEFAULT), otherwise the transformed plan. -/
def planItem (cfg : EnterpriseContactConfig) (catalog : KillBillCatalog)
    (product : KillBillProduct) (plan : KillBillPlan) : Option Plan :=
  match plan.phases.find? (fun phase => phase.type == "EVERGREEN") with
  | none => none
  | some evergreenPhase =>
    match catalog.priceLists.find? (fun pl => pl.name == "DEFAULT") with
    | none => none
    | some defaultPriceList =>
      if plan.name ∈ defaultPriceList.plans then
        some (buildPlan cfg product plan evergreenPhase)
      else none

/-- The nested `forEach` push loops of `fetchKillBillPlans`. -/
def collectPlans (cfg : EnterpriseContactConfig)
    (catalog : KillBillCatalog) : List Plan :=
  catalog.products.foldl
    (fun acc product =>
      product.plans.foldl
        (fun acc2 plan =>
          match planItem cfg catalog product plan with
          | none => acc2
          | some p => acc2 ++ [p])
        acc)
    []

/-- Distinguishes why `fetchKillBillPlans` threw. -/
inductive CatalogFetchError where
  | networkError
  | apiError (status : Nat)
  | noCatalog
deriving DecidableEq, Repr

/-- The body of `fetchKillBillPlans`: throws on a rejected fetch, on a
non-2xx status, and when the catalog array is empty; otherwise
transforms the last catalog version. -/
def fetchKillBillPlans (cfg : EnterpriseContactConfig)
    (outcome : FetchOutcome (List KillBillCatalog)) :
    Except CatalogFetchError (List Plan) :=
  match outcome with
  | .throw => .error .networkError
  | .resp status catalogs =>
    if !okStatus status then .error (.apiError status)
    else
      match catalogs.getLast? with
      | none => .error .noCatalog
      | some catalog => .ok (collectPlans cfg catalog)

/-- Result of the plans handler: an error body with a status, or the
200 payload. -/
inductive PlansResult where
  | err (e : ErrorResponse) (status : Nat)
  | ok (plans : List Plan)
deriving DecidableEq, Repr

/-- The interval filter predicate applied when an interval was supplied:
substring match on the lowercased plan id. -/
def intervalKeeps (interval : String) (p : Plan) : Bool :=
  if interval = "year" then strIncludes (strToLower p.id) "annual"
  else strIncludes (strToLower p.id) "monthly"

/-- The `handlePlans` handler.  `interval` is the raw query parameter
(`none` when absent; `some ""` models `?interval=`).  The second
component lists the downstream calls issued. -/
def handlePlans (cfg : EnterpriseContactConfig) (interval : Option String)
    (outcome : FetchOutcome (List KillBillCatalog)) :
    PlansResult × List String :=
  if !strFalsy interval
      && (interval.getD "") != "month" && (interval.getD "") != "year" then
    (.err { code := "INVALID_INTERVAL",
            message := "Interval must be \x27month\x27 or \x27year\x27" } 400,
      [])
  else
    match fetchKillBillPlans cfg outcome with
    | .error _ =>
      (.err { code := "KILLBILL_UNAVAILABLE",
              message := "Kill Bill service is currently unavailable" } 503,
        ["GET /1.0/kb/catalog"])
    | .ok plans =>
      let filteredPlans :=
        if !strFalsy interval then
          plans.filter (intervalKeeps (interval.getD ""))
        else plans
      if filteredPlans.isEmpty then
        (.err { code := "NO_PLANS_AVAILABLE",
                message := "No plans available for the specified interval" }
            404,
          ["GET /1.0/kb/catalog"])
      else (.ok filteredPlans, ["GET /1.0/kb/catalog"])

/-! ## Auth handlers (authorize, exchange-token, refresh-token, logout, me)

Each handler takes its request inputs and the outcome of its single
downstream call, and returns its HTTP result together with the list of
downstream calls issued.  The parsed JSON body of a downstream error
response is modelled by `SupabaseData`, covering the fields the
handlers read (`code`, `error_code`, `error_description`, `msg`). -/

/-- Fields of the downstream identity-provider JSON body read by the
error-translation code. -/
structure SupabaseData where
  code : Option Nat
  error_code : Option String
  error_description : Option String
  msg : Option String
deriving DecidableEq, Repr

/-- Result of an auth handler. -/
inductive AuthResult where
  | err (e : ErrorResponse) (status : Nat)
  | okJson (data : SupabaseData) (status : Nat)
  | noContent (status : Nat)
  | redirect (location : String) (status : Nat)
deriving DecidableEq, Repr

/-- The `handleAuthorize` handler.  `redirectTo` and `codeChallenge` are
the query parameters; `validUrl` models whether `new URL(redirectTo)`
succeeds; the downstream outcome carries the status and the optional
`Location` header of the non-following GET. -/
def handleAuthorize (redirectTo codeChallenge : Option String)
    (validUrl : String → Bool) (outcome : FetchOutcome (Option String)) :
    AuthResult × List String :=
  if strFalsy redirectTo then
    (.err { code := "MISSING_REDIRECT_TO",
            message := "redirect_to parameter is required" } 400, [])
  else if strFalsy codeChallenge then
    (.err { code := "MISSING_CODE_CHALLENGE",
            message := "code_challenge parameter is required" } 400, [])
  else if !validUrl (redirectTo.getD "") then
    (.err { code := "INVALID_REDIRECT_TO",
            message := "redirect_to must be a valid URL" } 400, [])
  else
    match outcome with
    | .throw =>
      (.err { code := "INTERNAL_ERROR", message := "Internal server error" }
          500,
        ["GET /auth/v1/authorize"])
    | .resp status location =>
      if !okStatus status && status ≠ 302 then
        (.err { code := "SUPABASE_OAUTH_ERROR",
                message :=
                  "Sorry, we encountered an error with the OAuth provider" }
            status,
          ["GET /auth/v1/authorize"])
      else
        match location with
        | none =>
          (.err { code := "NO_REDIRECT_LOCATION",
                  message := "No redirect location found" } 500,
            ["GET /auth/v1/authorize"])
        | some locationHeader =>
          (.redirect locationHeader 302, ["GET /auth/v1/authorize"])

/-- Request body of the exchange-token endpoint. -/
structure ExchangeTokenBody where
  auth_code : Option String
  code_verifier : Option String
deriving DecidableEq, Repr

/-- The `handleExchangeToken` handler.  `body` is `none` when
`c.req.json()` throws; `apikey` is the configured anon key. -/
def handleExchangeToken (body : Option ExchangeTokenBody)
    (apikey : Option String) (outcome : FetchOutcome SupabaseData) :
    AuthResult × List String :=
  match body with
  | none =>
    (.err { code := "INTERNAL_ERROR", message := "Internal server error" }
        500, [])
  | some b =>
    if strFalsy b.auth_code then
      (.err { code := "MISSING_AUTH_CODE",
              message := "auth_code is required" } 400, [])
    else if strFalsy b.code_verifier then
      (.err { code := "MISSING_CODE_VERIFIER",
              message := "code_verifier is required" } 400, [])
    else if strFalsy apikey then
      (.err { code := "MISSING_API_KEY",
              message := "Supabase API key not configured" } 500, [])
    else
      match outcome with
      | .throw =>
        (.err { code := "INTERNAL_ERROR",
                message := "Internal server error" } 500,
          ["POST /auth/v1/token?grant_type=pkce"])
      | .resp status data =>
        if !okStatus status then
          (.err { code := jsOrStr data.error_code "SUPABASE_ERROR",
                  message := jsOrStr data.error_description
                    (jsOrStr data.msg "Error from Supabase") }
              (jsOrNat data.code (jsOrNat (some status) 500)),
            ["POST /auth/v1/token?grant_type=pkce"])
        else (.okJson data 200, ["POST /auth/v1/token?grant_type=pkce"])

/-- Request body of the refresh-token endpoint. -/
structure RefreshTokenBody where
  refresh_token : Option String
deriving DecidableEq, Repr

/-- The `handleRefreshToken` handler.  Note two differences from
exchange-token that are mirrored from the source: the local error
status is `data.code || 500` (ignoring the downstream status) and the
error message is `data.msg || "Error from Supabase"` (no
`error_description` in the chain). -/
def handleRefreshToken (body : Option RefreshTokenBody)
    (apikey : Option String) (outcome : FetchOutcome SupabaseData) :
    AuthResult × List String :=
  match body with
  | none =>
    (.err { code := "INTERNAL_ERROR", message := "Internal server error" }
        500, [])
  | some b =>
    if strFalsy b.refresh_token then
      (.err { code := "MISSING_REFRESH_TOKEN",
              message := "refresh_token is required" } 400, [])
    else if strFalsy apikey then
      (.err { code := "MISSING_API_KEY",
              message := "Supabase API key not configured" } 500, [])
    else
      match outcome with
      | .throw =>
        (.err { code := "INTERNAL_ERROR",
                message := "Internal server error" } 500,
          ["POST /auth/v1/token?grant_type=refresh_token"])
      | .resp _status data =>
        if !okStatus _status then
          (.err { code := jsOrStr data.error_code "SUPABASE_ERROR",
                  message := jsOrStr data.msg "Error from Supabase" }
              (jsOrNat data.code 500),
            ["POST /auth/v1/token?grant_type=refresh_token"])
        else (.okJson data 200, ["POST /auth/v1/token?grant_type=refresh_token"])

/-- The `handleLogout` handler: requires the Authorization header, then
the API key, then posts to the logout endpoint; 204 with no body on
success. -/
def handleLogout (authorization apikey : Option String)
    (outcome : FetchOutcome SupabaseData) : AuthResult × List String :=
  if strFalsy authorization then
    (.err { code := "MISSING_AUTHORIZATION",
            message := "Authorization header is required" } 401, [])
  else if strFalsy apikey then
    (.err { code := "MISSING_API_KEY",
            message := "Supabase API key not configured" } 500, [])
  else
    match outcome with
    | .throw =>
      (.err { code := "INTERNAL_ERROR", message := "Internal server error" }
          500,
        ["POST /auth/v1/logout"])
    | .resp status data =>
      if !okStatus status then
        (.err { code := jsOrStr data.error_code "SUPABASE_ERROR",
                message := jsOrStr data.error_description
                  (jsOrStr data.msg "Error from Supabase") }
            (jsOrNat data.code (jsOrNat (some status) 500)),
          ["POST /auth/v1/logout"])
      else (.noContent 204, ["POST /auth/v1/logout"])

/-- The `handleMe` handler: requires the Authorization header, then the
API key, then forwards the downstream user record verbatim. -/
def handleMe (authorization apikey : Option String)
    (outcome : FetchOutcome SupabaseData) : AuthResult × List String :=
  if strFalsy authorization then
    (.err { code := "MISSING_AUTHORIZATION",
            message := "Authorization header is required" } 401, [])
  else if strFalsy apikey then
    (.err { code := "MISSING_API_KEY",
            message := "Supabase API key not configured" } 500, [])
  else
    match outcome with
    | .throw =>
      (.err { code := "INTERNAL_ERROR", message := "Internal server error" }
          500,
        ["GET /auth/v1/user"])
    | .resp status data =>
      if !okStatus status then
        (.err { code := jsOrStr data.error_code "SUPABASE_ERROR",
                message := jsOrStr data.error_description
                  (jsOrStr data.msg "Error from Supabase") }
            (jsOrNat data.code (jsOrNat (some status) 500)),
          ["GET /auth/v1/user"])
      else (.okJson data 200, ["GET /auth/v1/user"])

/-! ## Subscription orchestrator (POST /subscriptions) -/

/-- The request-scoped authenticated user (set by the auth middleware). -/
structure AuthenticatedUser where
  id : String
  email : Option String
deriving DecidableEq, Repr

/-- Request body of the create-subscription endpoint; only `planId` is
read by the handler. -/
structure CreateSubscriptionBody where
  planId : Option String
deriving DecidableEq, Repr

structure KillBillAccount where
  accountId : String
  name : String
  email : String
  externalKey : String
  currency : String
deriving DecidableEq, Repr

/-- Fields of a bundled subscription read by the existing-subscription
check. -/
structure KillBillSubscription where
  subscriptionId : String
  planName : String
  state : String
  cancelledDate : Option String
deriving DecidableEq, Repr

structure KillBillBundle where
  subscriptions : List KillBillSubscription
deriving DecidableEq, Repr

/-- Outcomes of the downstream calls of `getOrCreateKillBillAccount`:
the lookup by external key, the account creation (status plus optional
`Location` header), and the re-fetch of the created account. -/
structure AccountOutcomes where
  getAccount : FetchOutcome KillBillAccount
  createAccount : FetchOutcome (Option String)
  fetchAccountDetails : FetchOutcome KillBillAccount
deriving DecidableEq, Repr

/-- The account-creation fall-through of `getOrCreateKillBillAccount`:
entered when the lookup threw or returned non-2xx.  `Except Unit`
models a thrown error (fatal; surfaced as INTERNAL_ERROR upstream). -/
def createAccountPath (o : AccountOutcomes) :
    Except Unit KillBillAccount × List String :=
  match o.createAccount with
  | .throw => (.error (), ["POST /1.0/kb/accounts"])
  | .resp status location =>
    if !okStatus status then (.error (), ["POST /1.0/kb/accounts"])
    else
      match location with
      | none => (.error (), ["POST /1.0/kb/accounts"])
      | some _ =>
        match o.fetchAccountDetails with
        | .throw =>
          (.error (), ["POST /1.0/kb/accounts", "GET accountLocation"])
        | .resp status2 account =>
          if !okStatus status2 then
            (.error (), ["POST /1.0/kb/accounts", "GET accountLocation"])
          else (.ok account, ["POST /1.0/kb/accounts", "GET accountLocation"])

/-- The `getOrCreateKillBillAccount` step: a 2xx lookup returns the
existing account; a thrown or non-2xx lookup is absorbed and falls
through to creation. -/
def getOrCreateKillBillAccount (o : AccountOutcomes) :
    Except Unit KillBillAccount × List String :=
  match o.getAccount with
  | .resp status account =>
    if okStatus status then
      (.ok account, ["GET /1.0/kb/accounts?externalKey"])
    else
      let (r, calls) := createAccountPath o
      (r, "GET /1.0/kb/accounts?externalKey" :: calls)
  | .throw =>
    let (r, calls) := createAccountPath o
    (r, "GET /1.0/kb/accounts?externalKey" :: calls)

/-- The per-subscription test of the existing-subscription scan:
`sub.state === "ACTIVE" && !sub.cancelledDate`. -/
def isActiveNonCancelled (sub : KillBillSubscription) : Bool :=
  sub.state == "ACTIVE" && strFalsy sub.cancelledDate

/-- The nested for-loops of `checkExistingSubscription`: first matching
subscription across the bundles, scanned in order. -/
def findActiveSubscription : List KillBillBundle →
    Option KillBillSubscription
  | [] => none
  | bundle :: rest =>
    match bundle.subscriptions.find? isActiveNonCancelled with
    | some sub => some sub
    | none => findActiveSubscription rest

/-- The `checkExistingSubscription` step: any thrown error or non-2xx
status yields `none` (best effort), as does an empty bundle list;
otherwise the scan result. -/
def checkExistingSubscription
    (outcome : FetchOutcome (List KillBillBundle)) :
    Option KillBillSubscription :=
  match outcome with
  | .throw => none
  | .resp status bundles =>
    if !okStatus status then none
    else if bundles.isEmpty then none
    else findActiveSubscription bundles

/-- Subscription id extraction from the `Location` response header:
`location?.split("/").pop() || "unknown"`. -/
def subscriptionIdFromLocation (location : Option String) : String :=
  match location with
  | none => "unknown"
  | some l =>
    match (l.splitOn "/").getLast? with
    | none => "unknown"
    | some seg => if seg.isEmpty then "unknown" else seg

/-- The `createKillBillSubscription` step: throws (`Except.error`) on a
rejected fetch or non-2xx status, otherwise returns the subscription
id parsed from the `Location` header. -/
def createKillBillSubscription (outcome : FetchOutcome (Option String)) :
    Except Unit String :=
  match outcome with
  | .throw => .error ()
  | .resp status location =>
    if !okStatus status then .error ()
    else .ok (subscriptionIdFromLocation location)

/-- Outcomes of all downstream calls the create-subscription handler
may issue, in order. -/
structure SubscriptionOutcomes where
  account : AccountOutcomes
  bundles : FetchOutcome (List KillBillBundle)
  createSubscription : FetchOutcome (Option String)
deriving DecidableEq, Repr

/-- Result of the create-subscription handler: an error body with a
status, or 201 Created with the `Location` response header value. -/
inductive SubscriptionResult where
  | err (e : ErrorResponse) (status : Nat)
  | created (location : String)
deriving DecidableEq, Repr

/-- The `handleCreateSubscription` handler.  `user` is the
request-scoped authenticated user (`none` makes `getUser` throw, which
the top-level catch turns into INTERNAL_ERROR); `body` is `none` when
`c.req.json()` throws; `origin` is the request URL origin. -/
def handleCreateSubscription (user : Option AuthenticatedUser)
    (body : Option CreateSubscriptionBody) (origin : String)
    (o : SubscriptionOutcomes) : SubscriptionResult × List String :=
  match user with
  | none =>
    (.err { code := "INTERNAL_ERROR",
            message := "Failed to create subscription" } 500, [])
  | some _user =>
    match body with
    | none =>
      (.err { code := "INTERNAL_ERROR",
              message := "Failed to create subscription" } 500, [])
    | some b =>
      if strFalsy b.planId then
        (.err { code := "MISSING_PLAN_ID", message := "planId is required" }
            400, [])
      else
        let (accountResult, accountCalls) := getOrCreateKillBillAccount o.account
        match accountResult with
        | .error () =>
          (.err { code := "INTERNAL_ERROR",
                  message := "Failed to create subscription" } 500,
            accountCalls)
        | .ok _account =>
          let calls := accountCalls ++ ["GET /1.0/kb/accounts/{id}/bundles"]
          match checkExistingSubscription o.bundles with
          | some _sub =>
            (.err { code := "ALREADY_SUBSCRIBED",
                    message := "Already subscribed to a non-cancellable plan" }
                409, calls)
          | none =>
            let calls := calls ++ ["POST /1.0/kb/subscriptions"]
            match createKillBillSubscription o.createSubscription with
            | .error () =>
              (.err { code := "SUBSCRIPTION_CREATION_FAILED",
                      message := "Failed to create subscription" } 500, calls)
            | .ok subscriptionId =>
              (.created (origin ++ "/subscriptions/" ++ subscriptionId), calls)

/-- Modelled from the spec: the error body the spec claims for all four
token-style endpoints, with the two-level code fallback and the
three-level message fallback read as null-coalescing. -/
def claimedErrorBody (data : SupabaseData) : ErrorResponse :=
  { code := data.error_code.getD "SUPABASE_ERROR"
    message := data.error_description.getD (data.msg.getD "Error from Supabase") }

/-! ## Helper lemmas -/

@[simp] theorem strFalsy_none : strFalsy none = true := rfl

@[simp] theorem strFalsy_some (s : String) :
    strFalsy (some s) = s.isEmpty := rfl

theorem jsOrStr_eq_getD (x : Option String) (d : String) (hx : x ≠ some "") :
    jsOrStr x d = x.getD d := by
  cases x with
  | none => rfl
  | some s =>
    have hs : s ≠ "" := fun h => hx (by rw [h])
    simp [jsOrStr, Option.getD, String.isEmpty_iff, hs]

theorem planFoldInner_eq (cfg : EnterpriseContactConfig)
    (catalog : KillBillCatalog) (product : KillBillProduct)
    (plans : List KillBillPlan) (acc : List Plan) :
    plans.foldl
        (fun acc2 plan =>
          match planItem cfg catalog product plan with
          | none => acc2
          | some p => acc2 ++ [p])
        acc
      = acc ++ plans.filterMap (planItem cfg catalog product) := by
  induction plans generalizing acc with
  | nil => simp
  | cons hd tl ih =>
    simp only [List.foldl_cons, List.filterMap_cons]
    cases h : planItem cfg catalog product hd with
    | none => simp only [h, ih]
    | some p => simp only [h, ih, List.append_assoc, List.singleton_append]

theorem foldl_append_form {α β : Type} (g : α → List β) (l : List α)
    (acc : List β) :
    l.foldl (fun acc x => acc ++ g x) acc = acc ++ l.flatMap g := by
  induction l generalizing acc with
  | nil => simp
  | cons hd tl ih => simp [ih, List.append_assoc]

theorem collectPlans_eq_flatMap (cfg : EnterpriseContactConfig)
    (catalog : KillBillCatalog) :
    collectPlans cfg catalog
      = catalog.products.flatMap
          (fun product => product.plans.filterMap (planItem cfg catalog product)) := by
  unfold collectPlans
  have hfun :
      (fun (acc : List Plan) (product : KillBillProduct) =>
        product.plans.foldl
          (fun acc2 plan =>
            match planItem cfg catalog product plan with
            | none => acc2
            | some p => acc2 ++ [p])
          acc)
      = (fun (acc : List Plan) (product : KillBillProduct) =>
          acc ++ product.plans.filterMap (planItem cfg catalog product)) := by
    funext acc product
    exact planFoldInner_eq cfg catalog product product.plans acc
  rw [hfun, foldl_append_form]
  simp

theorem mem_collectPlans (cfg : EnterpriseContactConfig)
    (catalog : KillBillCatalog) (p : Plan) :
    p ∈ collectPlans cfg catalog ↔
      ∃ product ∈ catalog.products, ∃ plan ∈ product.plans,
        planItem cfg catalog product plan = some p := by
  rw [collectPlans_eq_flatMap]
  simp [List.mem_flatMap, List.mem_filterMap]

theorem planItem_eq_some (cfg : EnterpriseContactConfig)
    (catalog : KillBillCatalog) (product : KillBillProduct)
    (plan : KillBillPlan) (p : Plan) :
    planItem cfg catalog product plan = some p ↔
      ∃ eph, plan.phases.find? (fun phase => phase.type == "EVERGREEN") = some eph
        ∧ ∃ dpl, catalog.priceLists.find? (fun pl => pl.name == "DEFAULT") = some dpl
        ∧ plan.name ∈ dpl.plans ∧ p = buildPlan cfg product plan eph := by
  unfold planItem
  cases h1 : plan.phases.find? (fun phase => phase.type == "EVERGREEN") with
  | none => simp [h1]
  | some eph =>
    cases h2 : catalog.priceLists.find? (fun pl => pl.name == "DEFAULT") with
    | none => simp [h2]
    | some dpl =>
      by_cases h3 : plan.name ∈ dpl.plans
      · simp [h2, h3, eq_comm]
      · simp [h2, h3]

theorem findActiveSubscription_eq_none (bundles : List KillBillBundle) :
    findActiveSubscription bundles = none ↔
      ∀ bundle ∈ bundles, ∀ sub ∈ bundle.subscriptions,
        isActiveNonCancelled sub = false := by
  induction bundles with
  | nil => simp [findActiveSubscription]
  | cons b rest ih =>
    unfold findActiveSubscription
    cases h : b.subscriptions.find? isActiveNonCancelled with
    | some s =>
      simp only [h]
      constructor
      · intro hc; exact absurd hc (by simp)
      · intro hall
        have hs := List.find?_some h
        have hmem := List.mem_of_find?_eq_some h
        rw [hall b (List.mem_cons_self b rest) s hmem] at hs
        cases hs
    | none =>
      rw [List.find?_eq_none] at h
      simp only [ih]
      constructor
      · intro hrest bundle hb sub hsub
        rcases List.mem_cons.mp hb with rfl | hb
        · simpa using h sub hsub
        · exact hrest bundle hb sub hsub
      · intro hall bundle hb sub hsub
        exact hall bundle (List.mem_cons_of_mem _ hb) sub hsub

/-! ## Claim theorems -/

/-- C4: for every endpoint and every documented required input field
(authorize: redirect_to, code_challenge; exchange-token: auth_code,
code_verifier; refresh-token: refresh_token; subscriptions: planId;
logout/me: Authorization header), a request missing that field returns
HTTP 400 (401 for a missing Authorization header) with the
corresponding MISSING_* error code, and the handler issues no
downstream HTTP call (the call list is empty). -/
theorem missing_field_fail_fast :
    (∀ (cc : Option String) (validUrl : String → Bool)
        (outcome : FetchOutcome (Option String)),
      handleAuthorize none cc validUrl outcome
        = (.err ⟨"MISSING_REDIRECT_TO", "redirect_to parameter is required"⟩
            400, []))
    ∧ (∀ (rt : Option String) (validUrl : String → Bool)
        (outcome : FetchOutcome (Option String)), strFalsy rt = false →
      handleAuthorize rt none validUrl outcome
        = (.err ⟨"MISSING_CODE_CHALLENGE",
            "code_challenge parameter is required"⟩ 400, []))
    ∧ (∀ (cv apikey : Option String) (outcome : FetchOutcome SupabaseData),
      handleExchangeToken (some ⟨none, cv⟩) apikey outcome
        = (.err ⟨"MISSING_AUTH_CODE", "auth_code is required"⟩ 400, []))
    ∧ (∀ (ac apikey : Option String) (outcome : FetchOutcome SupabaseData),
        strFalsy ac = false →
      handleExchangeToken (some ⟨ac, none⟩) apikey outcome
        = (.err ⟨"MISSING_CODE_VERIFIER", "code_verifier is required"⟩ 400, []))
    ∧ (∀ (apikey : Option String) (outcome : FetchOutcome SupabaseData),
      handleRefreshToken (some ⟨none⟩) apikey outcome
        = (.err ⟨"MISSING_REFRESH_TOKEN", "refresh_token is required"⟩ 400, []))
    ∧ (∀ (u : AuthenticatedUser) (origin : String) (o : SubscriptionOutcomes),
      handleCreateSubscription (some u) (some ⟨none⟩) origin o
        = (.err ⟨"MISSING_PLAN_ID", "planId is required"⟩ 400, []))
    ∧ (∀ (apikey : Option String) (outcome : FetchOutcome SupabaseData),
      handleLogout none apikey outcome
        = (.err ⟨"MISSING_AUTHORIZATION", "Authorization header is required"⟩
            401, []))
    ∧ (∀ (apikey : Option String) (outcome : FetchOutcome SupabaseData),
      handleMe none apikey outcome
        = (.err ⟨"MISSING_AUTHORIZATION", "Authorization header is required"⟩
            401, [])) := by
  refine ⟨?_, ?_, ?_, ?_, ?_, ?_, ?_, ?_⟩
  · intro cc validUrl outcome
    simp [handleAuthorize, strFalsy]
  · intro rt validUrl outcome hrt
    simp [handleAuthorize, hrt]
  · intro cv apikey outcome
    simp [handleExchangeToken, strFalsy]
  · intro ac apikey outcome hac
    simp [handleExchangeToken, hac]
  · intro apikey outcome
    simp [handleRefreshToken, strFalsy]
  · intro u origin o
    simp [handleCreateSubscription, strFalsy]
  · intro apikey outcome
    simp [handleLogout, strFalsy]
  · intro apikey outcome
    simp [handleMe, strFalsy]

theorem missing_field_fail_fast_witness :
    handleAuthorize (some "https://app.example/cb") none (fun _ => true)
        (.throw : FetchOutcome (Option String))
      = (.err ⟨"MISSING_CODE_CHALLENGE",
          "code_challenge parameter is required"⟩ 400, [])
    ∧ handleExchangeToken (some ⟨some "code123", none⟩) (some "anon")
        (.throw : FetchOutcome SupabaseData)
      = (.err ⟨"MISSING_CODE_VERIFIER", "code_verifier is required"⟩ 400, []) :=
  ⟨missing_field_fail_fast.2.1 (some "https://app.example/cb")
      (fun _ => true) .throw (by decide),
    missing_field_fail_fast.2.2.2.1 (some "code123") (some "anon") .throw
      (by decide)⟩

/-- C5: for GET /auth/authorize with valid inputs, a downstream 302
with a Location header L becomes a 302 redirect to L; a 302 without a
Location header becomes 500 NO_REDIRECT_LOCATION; any other
non-2xx/non-302 downstream status S becomes SUPABASE_OAUTH_ERROR with
HTTP status S. -/
theorem authorize_redirect_translation
    (rt cc : Option String) (validUrl : String → Bool)
    (hrt : strFalsy rt = false) (hcc : strFalsy cc = false)
    (hv : validUrl (rt.getD "") = true) :
    (∀ loc : String,
      handleAuthorize rt cc validUrl (.resp 302 (some loc))
        = (.redirect loc 302, ["GET /auth/v1/authorize"]))
    ∧ handleAuthorize rt cc validUrl (.resp 302 none)
        = (.err ⟨"NO_REDIRECT_LOCATION", "No redirect location found"⟩ 500,
            ["GET /auth/v1/authorize"])
    ∧ (∀ (s : Nat) (loc : Option String), okStatus s = false → s ≠ 302 →
      handleAuthorize rt cc validUrl (.resp s loc)
        = (.err ⟨"SUPABASE_OAUTH_ERROR",
            "Sorry, we encountered an error with the OAuth provider"⟩ s,
            ["GET /auth/v1/authorize"])) := by
  refine ⟨?_, ?_, ?_⟩
  · intro loc
    simp [handleAuthorize, hrt, hcc, hv, okStatus]
  · simp [handleAuthorize, hrt, hcc, hv, okStatus]
  · intro s loc hs h302
    simp [handleAuthorize, hrt, hcc, hv, hs, h302]

theorem authorize_redirect_translation_witness :
    (handleAuthorize (some "https://app.example/cb") (some "abc")
        (fun _ => true) (.resp 302 (some "https://idp.example/cb"))
      = (.redirect "https://idp.example/cb" 302, ["GET /auth/v1/authorize"]))
    ∧ handleAuthorize (some "https://app.example/cb") (some "abc")
        (fun _ => true) (.resp 302 none)
      = (.err ⟨"NO_REDIRECT_LOCATION", "No redirect location found"⟩ 500,
          ["GET /auth/v1/authorize"])
    ∧ handleAuthorize (some "https://app.example/cb") (some "abc")
        (fun _ => true) (.resp 403 none)
      = (.err ⟨"SUPABASE_OAUTH_ERROR",
          "Sorry, we encountered an error with the OAuth provider"⟩ 403,
          ["GET /auth/v1/authorize"]) :=
  have h := authorize_redirect_translation (some "https://app.example/cb")
    (some "abc") (fun _ => true) (by decide) (by decide) (by decide)
  ⟨h.1 "https://idp.example/cb", h.2.1, h.2.2 403 none (by decide) (by decide)⟩

/-- C3 counterexample: a successful catalog fetch returning an empty
array of catalog versions yields 503 KILLBILL_UNAVAILABLE (the
transformer throws and the handler catches it exactly like a fetch
failure), not 404 NO_PLANS_AVAILABLE as the claim states. -/
theorem plans_empty_catalog_cex :
    handlePlans ⟨"sales@example.com", "+1-555", "Contact sales"⟩ none
        (.resp 200 [])
      = (.err ⟨"KILLBILL_UNAVAILABLE",
          "Kill Bill service is currently unavailable"⟩ 503,
          ["GET /1.0/kb/catalog"])
    ∧ (503 : Nat) ≠ 404 := by decide

/-- C3 amended: a failed catalog fetch (rejected promise or non-2xx
status) yields 503 KILLBILL_UNAVAILABLE; a successful fetch whose
catalog-version array is empty also yields 503 KILLBILL_UNAVAILABLE;
404 NO_PLANS_AVAILABLE arises only when the fetch succeeds with a
non-empty array and filtering yields zero plans. -/
theorem plans_failure_modes (cfg : EnterpriseContactConfig) :
    (handlePlans cfg none .throw).1
      = .err ⟨"KILLBILL_UNAVAILABLE",
          "Kill Bill service is currently unavailable"⟩ 503
    ∧ (∀ (st : Nat) (catalogs : List KillBillCatalog), okStatus st = false →
      (handlePlans cfg none (.resp st catalogs)).1
        = .err ⟨"KILLBILL_UNAVAILABLE",
            "Kill Bill service is currently unavailable"⟩ 503)
    ∧ (∀ st : Nat, okStatus st = true →
      (handlePlans cfg none (.resp st [])).1
        = .err ⟨"KILLBILL_UNAVAILABLE",
            "Kill Bill service is currently unavailable"⟩ 503)
    ∧ (∀ (st : Nat) (catalogs : List KillBillCatalog)
        (catalog : KillBillCatalog), okStatus st = true →
        catalogs.getLast? = some catalog → collectPlans cfg catalog = [] →
      (handlePlans cfg none (.resp st catalogs)).1
        = .err ⟨"NO_PLANS_AVAILABLE",
            "No plans available for the specified interval"⟩ 404) := by
  refine ⟨?_, ?_, ?_, ?_⟩
  · simp [handlePlans, fetchKillBillPlans, strFalsy]
  · intro st catalogs hst
    simp [handlePlans, fetchKillBillPlans, strFalsy, hst]
  · intro st hst
    simp [handlePlans, fetchKillBillPlans, strFalsy, hst]
  · intro st catalogs catalog hst hlast hempty
    simp [handlePlans, fetchKillBillPlans, strFalsy, hst, hlast, hempty]

theorem plans_failure_modes_witness :
    (handlePlans ⟨"sales@example.com", "+1-555", "Contact sales"⟩ none
        (.resp 500
          [⟨[], []⟩])).1
      = .err ⟨"KILLBILL_UNAVAILABLE",
          "Kill Bill service is currently unavailable"⟩ 503
    ∧ (handlePlans ⟨"sales@example.com", "+1-555", "Contact sales"⟩ none
        (.resp 200 [⟨[], []⟩])).1
      = .err ⟨"NO_PLANS_AVAILABLE",
          "No plans available for the specified interval"⟩ 404 :=
  have h := plans_failure_modes ⟨"sales@example.com", "+1-555", "Contact sales"⟩
  ⟨h.2.1 500 [⟨[], []⟩] (by decide),
    h.2.2.2 200 [⟨[], []⟩] ⟨[], []⟩ (by decide) (by decide) (by decide)⟩

/-- C2 counterexample: when the downstream body has error_description
set and msg absent, refresh-token returns the default message "Error
from Supabase" instead of the error_description — its message chain is
msg-only, so the four endpoints do not share the claimed identical
three-level fallback. -/
theorem refresh_token_fallback_cex :
    (handleRefreshToken (some ⟨some "tok"⟩) (some "anon")
        (.resp 400 ⟨none, none, some "Invalid grant", none⟩)).1
      = .err ⟨"SUPABASE_ERROR", "Error from Supabase"⟩ 500
    ∧ claimedErrorBody ⟨none, none, some "Invalid grant", none⟩
      = ⟨"SUPABASE_ERROR", "Invalid grant"⟩
    ∧ ("Error from Supabase" : String) ≠ "Invalid grant" := by decide

/-- C2 amended: exchange-token, logout and me all build the error body
{code: d.error_code ?? "SUPABASE_ERROR", message: d.error_description
?? d.msg ?? "Error from Supabase"} (falsy fields, i.e. empty strings,
treated as absent); refresh-token shares the code fallback but its
message chain skips error_description: message = d.msg ?? "Error from
Supabase". -/
theorem supabase_error_fallback_chains
    (data : SupabaseData) (status : Nat) (hst : okStatus status = false)
    (hec : data.error_code ≠ some "")
    (hed : data.error_description ≠ some "") (hmsg : data.msg ≠ some "") :
    (∀ ac cv apikey : Option String, strFalsy ac = false →
        strFalsy cv = false → strFalsy apikey = false →
      ∃ st, (handleExchangeToken (some ⟨ac, cv⟩) apikey
          (.resp status data)).1
        = .err (claimedErrorBody data) st)
    ∧ (∀ authorization apikey : Option String, strFalsy authorization = false →
        strFalsy apikey = false →
      ∃ st, (handleLogout authorization apikey (.resp status data)).1
        = .err (claimedErrorBody data) st)
    ∧ (∀ authorization apikey : Option String, strFalsy authorization = false →
        strFalsy apikey = false →
      ∃ st, (handleMe authorization apikey (.resp status data)).1
        = .err (claimedErrorBody data) st)
    ∧ (∀ rt apikey : Option String, strFalsy rt = false →
        strFalsy apikey = false →
      ∃ st, (handleRefreshToken (some ⟨rt⟩) apikey (.resp status data)).1
        = .err ⟨data.error_code.getD "SUPABASE_ERROR",
            data.msg.getD "Error from Supabase"⟩ st) := by
  have hbody : jsOrStr data.error_code "SUPABASE_ERROR"
      = data.error_code.getD "SUPABASE_ERROR" := jsOrStr_eq_getD _ _ hec
  have hmsg2 : jsOrStr data.msg "Error from Supabase"
      = data.msg.getD "Error from Supabase" := jsOrStr_eq_getD _ _ hmsg
  have hdesc : jsOrStr data.error_description
        (jsOrStr data.msg "Error from Supabase")
      = data.error_description.getD (data.msg.getD "Error from Supabase") := by
    rw [jsOrStr_eq_getD _ _ hed, hmsg2]
  refine ⟨?_, ?_, ?_, ?_⟩
  · intro ac cv apikey hac hcv hak
    exact ⟨jsOrNat data.code (jsOrNat (some status) 500), by
      simp [handleExchangeToken, hac, hcv, hak, hst, claimedErrorBody,
        hbody, hdesc]⟩
  · intro authorization apikey hauth hak
    exact ⟨jsOrNat data.code (jsOrNat (some status) 500), by
      simp [handleLogout, hauth, hak, hst, claimedErrorBody, hbody, hdesc]⟩
  · intro authorization apikey hauth hak
    exact ⟨jsOrNat data.code (jsOrNat (some status) 500), by
      simp [handleMe, hauth, hak, hst, claimedErrorBody, hbody, hdesc]⟩
  · intro rt apikey hrt hak
    exact ⟨jsOrNat data.code 500, by
      simp [handleRefreshToken, hrt, hak, hst, hbody, hmsg2]⟩

theorem supabase_error_fallback_chains_witness :
    (∃ st, (handleExchangeToken (some ⟨some "code123", some "ver"⟩)
        (some "anon")
        (.resp 400 ⟨none, none, some "Invalid grant", none⟩)).1
      = .err (claimedErrorBody ⟨none, none, some "Invalid grant", none⟩) st)
    ∧ (∃ st, (handleRefreshToken (some ⟨some "tok"⟩) (some "anon")
        (.resp 400 ⟨none, none, some "Invalid grant", none⟩)).1
      = .err ⟨(none : Option String).getD "SUPABASE_ERROR",
          (none : Option String).getD "Error from Supabase"⟩ st) :=
  have h := supabase_error_fallback_chains
    ⟨none, none, some "Invalid grant", none⟩ 400 (by decide) (by decide)
    (by decide) (by decide)
  ⟨h.1 (some "code123") (some "ver") (some "anon") (by decide) (by decide)
      (by decide),
    h.2.2.2 (some "tok") (some "anon") (by decide) (by decide)⟩

theorem fetchKillBillPlans_ok (cfg : EnterpriseContactConfig)
    (outcome : FetchOutcome (List KillBillCatalog)) (plans : List Plan)
    (h : fetchKillBillPlans cfg outcome = .ok plans) :
    ∃ (st : Nat) (catalogs : List KillBillCatalog)
      (catalog : KillBillCatalog),
      outcome = .resp st catalogs ∧ okStatus st = true
        ∧ catalogs.getLast? = some catalog
        ∧ plans = collectPlans cfg catalog := by
  cases outcome with
  | throw => simp [fetchKillBillPlans] at h
  | resp st catalogs =>
    by_cases hst : okStatus st = true
    · cases hlast : catalogs.getLast? with
      | none => simp [fetchKillBillPlans, hst, hlast] at h
      | some catalog =>
        simp only [fetchKillBillPlans, hst, hlast, Bool.not_true,
          Bool.false_eq_true, if_false, Except.ok.injEq] at h
        exact ⟨st, catalogs, catalog, rfl, hst, hlast, h.symm⟩
    · rw [Bool.not_eq_true] at hst
      simp [fetchKillBillPlans, hst] at h

theorem collectPlans_enterprise_fields (cfg : EnterpriseContactConfig)
    (catalog : KillBillCatalog) :
    ∀ p ∈ collectPlans cfg catalog,
      (p.selectable = true ↔ p.tier ≠ "enterprise")
      ∧ (p.tier = "enterprise" →
          p.contactUs = some ⟨cfg.email, cfg.phone, cfg.body⟩)
      ∧ (p.contactUs.isSome = true ↔ p.tier = "enterprise") := by
  intro p hp
  rw [mem_collectPlans] at hp
  obtain ⟨product, -, plan, -, hitem⟩ := hp
  rw [planItem_eq_some] at hitem
  obtain ⟨eph, -, dpl, -, -, hb⟩ := hitem
  subst hb
  by_cases h : jsOrStr (PRODUCT_TIER_MAPPING product.name) "basic" = "enterprise"
  · simp [buildPlan, h]
  · simp [buildPlan, h, bne_iff_ne]

/-- Rewrites of the interval filter predicate at the two legal values. -/
theorem intervalKeeps_year :
    intervalKeeps "year" = fun p => strIncludes (strToLower p.id) "annual" := by
  funext p
  simp [intervalKeeps]

theorem intervalKeeps_month :
    intervalKeeps "month" = fun p => strIncludes (strToLower p.id) "monthly" := by
  funext p
  simp [intervalKeeps]

/-- Sample configuration for witness instances. -/
def sampleCfg : EnterpriseContactConfig :=
  ⟨"sales@example.com", "+1-555-0100", "Contact sales"⟩

/-- Sample two-product catalog for witness instances: a Basic product
whose basic-monthly plan is evergreen and in the DEFAULT price list and
whose basic-trial plan has only a TRIAL phase, plus an Enterprise
product whose enterprise-annual plan is evergreen and listed. -/
def sampleCatalog : KillBillCatalog :=
  { products :=
      [ { name := "Basic", prettyName := some "Basic Plan",
          plans :=
            [ { name := "basic-monthly",
                phases := [⟨"EVERGREEN", [⟨"USD", 10⟩]⟩] },
              { name := "basic-trial",
                phases := [⟨"TRIAL", []⟩] } ],
          included := some ["api-access"] },
        { name := "Enterprise", prettyName := some "Enterprise Plan",
          plans :=
            [ { name := "enterprise-annual",
                phases := [⟨"EVERGREEN", [⟨"USD", 1000⟩]⟩] } ],
          included := none } ],
    priceLists := [⟨"DEFAULT", ["basic-monthly", "enterprise-annual"]⟩] }

/-- C6: a plan of a product appears in the transformer output iff it
has a phase of type EVERGREEN and its name is a member of the plans of
the price list named exactly DEFAULT; plans failing either condition
are skipped; the catalog used is always the last element of the
fetched catalog-version array. -/
theorem catalog_plan_filtering (cfg : EnterpriseContactConfig)
    (st : Nat) (catalogs : List KillBillCatalog) (catalog : KillBillCatalog)
    (hst : okStatus st = true) (hlast : catalogs.getLast? = some catalog) :
    fetchKillBillPlans cfg (.resp st catalogs)
        = .ok (collectPlans cfg catalog)
    ∧ ∀ p : Plan, p ∈ collectPlans cfg catalog ↔
        ∃ product ∈ catalog.products, ∃ plan ∈ product.plans,
          (∃ phase ∈ plan.phases, phase.type = "EVERGREEN")
          ∧ (∃ dpl, catalog.priceLists.find? (fun pl => pl.name == "DEFAULT")
                = some dpl ∧ plan.name ∈ dpl.plans)
          ∧ ∃ eph, plan.phases.find? (fun phase => phase.type == "EVERGREEN")
                = some eph ∧ p = buildPlan cfg product plan eph := by
  constructor
  · simp [fetchKillBillPlans, hst, hlast]
  · intro p
    rw [mem_collectPlans]
    constructor
    · rintro ⟨product, hprod, plan, hplan, hitem⟩
      rw [planItem_eq_some] at hitem
      obtain ⟨eph, hfind, dpl, hdpl, hmem, hp⟩ := hitem
      refine ⟨product, hprod, plan, hplan, ?_, ⟨dpl, hdpl, hmem⟩,
        eph, hfind, hp⟩
      have hm := List.mem_of_find?_eq_some hfind
      have ht := List.find?_some hfind
      exact ⟨eph, hm, by simpa using ht⟩
    · rintro ⟨product, hprod, plan, hplan, -, ⟨dpl, hdpl, hmem⟩,
        eph, hfind, hp⟩
      exact ⟨product, hprod, plan, hplan,
        (planItem_eq_some cfg catalog product plan p).mpr
          ⟨eph, hfind, dpl, hdpl, hmem, hp⟩⟩

theorem catalog_plan_filtering_witness :
    fetchKillBillPlans sampleCfg (.resp 200 [sampleCatalog])
        = .ok (collectPlans sampleCfg sampleCatalog)
    ∧ ∀ p : Plan, p ∈ collectPlans sampleCfg sampleCatalog ↔
        ∃ product ∈ sampleCatalog.products, ∃ plan ∈ product.plans,
          (∃ phase ∈ plan.phases, phase.type = "EVERGREEN")
          ∧ (∃ dpl, sampleCatalog.priceLists.find?
                (fun pl => pl.name == "DEFAULT")
                = some dpl ∧ plan.name ∈ dpl.plans)
          ∧ ∃ eph, plan.phases.find? (fun phase => phase.type == "EVERGREEN")
                = some eph ∧ p = buildPlan sampleCfg product plan eph :=
  catalog_plan_filtering sampleCfg 200 [sampleCatalog] sampleCatalog
    (by decide) (by decide)

theorem handlePlans_ok (cfg : EnterpriseContactConfig)
    (interval : Option String)
    (outcome : FetchOutcome (List KillBillCatalog)) (output : List Plan)
    (h : (handlePlans cfg interval outcome).1 = .ok output) :
    ∃ plans, fetchKillBillPlans cfg outcome = .ok plans
      ∧ (output = plans
         ∨ output = plans.filter (intervalKeeps (interval.getD ""))) := by
  unfold handlePlans at h
  split at h
  · simp at h
  · split at h
    · simp at h
    · rename_i plans heq
      refine ⟨plans, heq, ?_⟩
      by_cases htr : strFalsy interval = true
      · simp only [htr, Bool.not_true, Bool.false_eq_true, if_false] at h
        split at h
        · simp at h
        · simp only [PlansResult.ok.injEq] at h
          exact Or.inl h.symm
      · rw [Bool.not_eq_true] at htr
        simp only [htr, Bool.not_false, if_true] at h
        split at h
        · simp at h
        · simp only [PlansResult.ok.injEq] at h
          exact Or.inr h.symm

/-- C8: every plan in the /plans output has selectable true iff its
tier is not enterprise, and carries a contactUs block (populated from
configuration) iff its tier is enterprise. -/
theorem enterprise_selectable_contact (cfg : EnterpriseContactConfig)
    (interval : Option String)
    (outcome : FetchOutcome (List KillBillCatalog)) (output : List Plan)
    (h : (handlePlans cfg interval outcome).1 = .ok output) :
    ∀ p ∈ output,
      (p.selectable = true ↔ p.tier ≠ "enterprise")
      ∧ (p.tier = "enterprise" →
          p.contactUs = some ⟨cfg.email, cfg.phone, cfg.body⟩)
      ∧ (p.contactUs.isSome = true ↔ p.tier = "enterprise") := by
  intro p hp
  obtain ⟨plans, hfetch, hout⟩ :=
    handlePlans_ok cfg interval outcome output h
  obtain ⟨st, catalogs, catalog, -, -, -, hplans⟩ :=
    fetchKillBillPlans_ok cfg outcome plans hfetch
  have hmem : p ∈ collectPlans cfg catalog := by
    rw [← hplans]
    rcases hout with rfl | rfl
    · exact hp
    · exact List.mem_of_mem_filter hp
  exact collectPlans_enterprise_fields cfg catalog p hmem

theorem enterprise_selectable_contact_witness :
    ((Plan.mk "basic-monthly" "Basic Plan" "basic" ["Api Access"]
        [⟨"USD", 10⟩] true none).selectable = true
      ↔ (Plan.mk "basic-monthly" "Basic Plan" "basic" ["Api Access"]
        [⟨"USD", 10⟩] true none).tier ≠ "enterprise")
    ∧ ((Plan.mk "basic-monthly" "Basic Plan" "basic" ["Api Access"]
        [⟨"USD", 10⟩] true none).tier = "enterprise" →
      (Plan.mk "basic-monthly" "Basic Plan" "basic" ["Api Access"]
        [⟨"USD", 10⟩] true none).contactUs
        = some ⟨sampleCfg.email, sampleCfg.phone, sampleCfg.body⟩)
    ∧ ((Plan.mk "basic-monthly" "Basic Plan" "basic" ["Api Access"]
        [⟨"USD", 10⟩] true none).contactUs.isSome = true
      ↔ (Plan.mk "basic-monthly" "Basic Plan" "basic" ["Api Access"]
        [⟨"USD", 10⟩] true none).tier = "enterprise") :=
  enterprise_selectable_contact sampleCfg (some "month")
    (.resp 200 [sampleCatalog])
    [Plan.mk "basic-monthly" "Basic Plan" "basic" ["Api Access"]
      [⟨"USD", 10⟩] true none]
    (by decide)
    (Plan.mk "basic-monthly" "Basic Plan" "basic" ["Api Access"]
      [⟨"USD", 10⟩] true none)
    (by decide)

/-- C9: a non-empty interval value other than month or year yields 400
INVALID_INTERVAL with no downstream call; interval=year keeps exactly
the plans whose lowercased id contains the substring annual, and
interval=month exactly those whose lowercased id contains monthly;
with no interval parameter no such filtering is applied.  (An empty
interval value is falsy in the source and treated as absent.) -/
theorem plans_interval_filter (cfg : EnterpriseContactConfig) :
    (∀ (v : String) (outcome : FetchOutcome (List KillBillCatalog)),
        v ≠ "" → v ≠ "month" → v ≠ "year" →
      handlePlans cfg (some v) outcome
        = (.err ⟨"INVALID_INTERVAL",
            "Interval must be \x27month\x27 or \x27year\x27"⟩ 400, []))
    ∧ (∀ (st : Nat) (catalogs : List KillBillCatalog)
        (catalog : KillBillCatalog), okStatus st = true →
        catalogs.getLast? = some catalog →
      (handlePlans cfg (some "year") (.resp st catalogs)).1
        = if ((collectPlans cfg catalog).filter
              (fun p => strIncludes (strToLower p.id) "annual")).isEmpty
          then .err ⟨"NO_PLANS_AVAILABLE",
              "No plans available for the specified interval"⟩ 404
          else .ok ((collectPlans cfg catalog).filter
              (fun p => strIncludes (strToLower p.id) "annual")))
    ∧ (∀ (st : Nat) (catalogs : List KillBillCatalog)
        (catalog : KillBillCatalog), okStatus st = true →
        catalogs.getLast? = some catalog →
      (handlePlans cfg (some "month") (.resp st catalogs)).1
        = if ((collectPlans cfg catalog).filter
              (fun p => strIncludes (strToLower p.id) "monthly")).isEmpty
          then .err ⟨"NO_PLANS_AVAILABLE",
              "No plans available for the specified interval"⟩ 404
          else .ok ((collectPlans cfg catalog).filter
              (fun p => strIncludes (strToLower p.id) "monthly")))
    ∧ (∀ (st : Nat) (catalogs : List KillBillCatalog)
        (catalog : KillBillCatalog), okStatus st = true →
        catalogs.getLast? = some catalog →
      (handlePlans cfg none (.resp st catalogs)).1
        = if (collectPlans cfg catalog).isEmpty
          then .err ⟨"NO_PLANS_AVAILABLE",
              "No plans available for the specified interval"⟩ 404
          else .ok (collectPlans cfg catalog)) := by
  refine ⟨?_, ?_, ?_, ?_⟩
  · intro v outcome hv hm hy
    simp [handlePlans, String.isEmpty_iff, hv, hm, hy, bne_iff_ne]
  · intro st catalogs catalog hst hlast
    have hlit : ("year" : String).isEmpty = false := by decide
    by_cases hemp : ((collectPlans cfg catalog).filter
        (fun p => strIncludes (strToLower p.id) "annual")).isEmpty = true
    · simp [handlePlans, fetchKillBillPlans, hst, hlast, intervalKeeps_year,
        hemp, hlit, List.isEmpty_iff.mp hemp]
    · rw [Bool.not_eq_true] at hemp
      simp [handlePlans, fetchKillBillPlans, hst, hlast, intervalKeeps_year,
        hemp, hlit, List.isEmpty_eq_false_iff_exists_mem.mp hemp]
  · intro st catalogs catalog hst hlast
    have hlit : ("month" : String).isEmpty = false := by decide
    by_cases hemp : ((collectPlans cfg catalog).filter
        (fun p => strIncludes (strToLower p.id) "monthly")).isEmpty = true
    · simp [handlePlans, fetchKillBillPlans, hst, hlast, intervalKeeps_month,
        hemp, hlit, List.isEmpty_iff.mp hemp]
    · rw [Bool.not_eq_true] at hemp
      simp [handlePlans, fetchKillBillPlans, hst, hlast, intervalKeeps_month,
        hemp, hlit, List.isEmpty_eq_false_iff_exists_mem.mp hemp]
  · intro st catalogs catalog hst hlast
    by_cases hemp : (collectPlans cfg catalog).isEmpty = true
    · simp [handlePlans, fetchKillBillPlans, hst, hlast, hemp,
        List.isEmpty_iff.mp hemp]
    · rw [Bool.not_eq_true] at hemp
      simp [handlePlans, fetchKillBillPlans, hst, hlast, hemp,
        List.isEmpty_eq_false_iff_exists_mem.mp hemp]

theorem plans_interval_filter_witness :
    handlePlans sampleCfg (some "weekly")
        (.throw : FetchOutcome (List KillBillCatalog))
      = (.err ⟨"INVALID_INTERVAL",
          "Interval must be \x27month\x27 or \x27year\x27"⟩ 400, [])
    ∧ (handlePlans sampleCfg (some "year") (.resp 200 [sampleCatalog])).1
      = if ((collectPlans sampleCfg sampleCatalog).filter
            (fun p => strIncludes (strToLower p.id) "annual")).isEmpty
        then .err ⟨"NO_PLANS_AVAILABLE",
            "No plans available for the specified interval"⟩ 404
        else .ok ((collectPlans sampleCfg sampleCatalog).filter
            (fun p => strIncludes (strToLower p.id) "annual")) :=
  ⟨(plans_interval_filter sampleCfg).1 "weekly" .throw (by decide) (by decide)
      (by decide),
    (plans_interval_filter sampleCfg).2.1 200 [sampleCatalog] sampleCatalog
      (by decide) (by decide)⟩

theorem checkExisting_some_of_active (st : Nat)
    (bundles : List KillBillBundle) (hst : okStatus st = true)
    (h : ∃ bundle ∈ bundles, ∃ sub ∈ bundle.subscriptions,
        sub.state = "ACTIVE" ∧ sub.cancelledDate = none) :
    (checkExistingSubscription (.resp st bundles)).isSome = true := by
  obtain ⟨bundle, hb, sub, hs, hstate, hdate⟩ := h
  have hne : bundles.isEmpty = false := by
    cases bundles with
    | nil => exact absurd hb (List.not_mem_nil _)
    | cons x xs => rfl
  unfold checkExistingSubscription
  simp only [hst, Bool.not_true, Bool.false_eq_true, if_false, hne]
  rw [Option.isSome_iff_ne_none]
  intro hnone
  rw [findActiveSubscription_eq_none] at hnone
  have hfalse := hnone bundle hb sub hs
  rw [isActiveNonCancelled, hstate, hdate] at hfalse
  simp at hfalse

theorem checkExisting_none_of_failure
    (outcome : FetchOutcome (List KillBillBundle))
    (h : outcome = .throw
      ∨ ∃ st bundles, outcome = .resp st bundles ∧ okStatus st = false) :
    checkExistingSubscription outcome = none := by
  rcases h with rfl | ⟨st, bundles, rfl, hst⟩
  · rfl
  · simp [checkExistingSubscription, hst]

theorem checkExisting_none_of_dates (st : Nat)
    (bundles : List KillBillBundle)
    (h : ∀ bundle ∈ bundles, ∀ sub ∈ bundle.subscriptions,
        sub.state = "ACTIVE" → ∃ d, sub.cancelledDate = some d ∧ d ≠ "") :
    checkExistingSubscription (.resp st bundles) = none := by
  have hfind : findActiveSubscription bundles = none := by
    rw [findActiveSubscription_eq_none]
    intro bundle hb sub hs
    by_cases hact : sub.state = "ACTIVE"
    · obtain ⟨d, hd, hdne⟩ := h bundle hb sub hs hact
      have : d.isEmpty = false := by
        cases hde : d.isEmpty
        · rfl
        · exact absurd ((String.isEmpty_iff d).mp hde) hdne
      simp [isActiveNonCancelled, hd, this]
    · have : (sub.state == "ACTIVE") = false := by
        simpa using hact
      simp [isActiveNonCancelled, this]
  simp only [checkExistingSubscription]
  by_cases hst : okStatus st = true
  · simp [hst, hfind]
  · rw [Bool.not_eq_true] at hst
    simp [hst]

/-- Reduces the create-subscription handler once the plan id is present
and the account lookup succeeded with a 2xx. -/
theorem handleCreateSubscription_after_account (u : AuthenticatedUser)
    (b : CreateSubscriptionBody) (origin : String)
    (o : SubscriptionOutcomes) (stG : Nat) (acct : KillBillAccount)
    (hplan : strFalsy b.planId = false)
    (hacct : o.account.getAccount = .resp stG acct)
    (hokG : okStatus stG = true) :
    handleCreateSubscription (some u) (some b) origin o
      = match checkExistingSubscription o.bundles with
        | some _ =>
          (.err ⟨"ALREADY_SUBSCRIBED",
              "Already subscribed to a non-cancellable plan"⟩ 409,
            ["GET /1.0/kb/accounts?externalKey",
              "GET /1.0/kb/accounts/{id}/bundles"])
        | none =>
          match createKillBillSubscription o.createSubscription with
          | .error () =>
            (.err ⟨"SUBSCRIPTION_CREATION_FAILED",
                "Failed to create subscription"⟩ 500,
              ["GET /1.0/kb/accounts?externalKey",
                "GET /1.0/kb/accounts/{id}/bundles",
                "POST /1.0/kb/subscriptions"])
          | .ok sid =>
            (.created (origin ++ "/subscriptions/" ++ sid),
              ["GET /1.0/kb/accounts?externalKey",
                "GET /1.0/kb/accounts/{id}/bundles",
                "POST /1.0/kb/subscriptions"]) := by
  cases hch : checkExistingSubscription o.bundles with
  | some sub =>
    simp [handleCreateSubscription, hplan, getOrCreateKillBillAccount,
      hacct, hokG, hch]
  | none =>
    cases hcr : createKillBillSubscription o.createSubscription with
    | error e =>
      cases e
      simp [handleCreateSubscription, hplan, getOrCreateKillBillAccount,
        hacct, hokG, hch, hcr]
    | ok sid =>
      simp [handleCreateSubscription, hplan, getOrCreateKillBillAccount,
        hacct, hokG, hch, hcr]

/-- C1: for POST /subscriptions, when the bundles fetch succeeded, an
existing subscription with state ACTIVE and cancelledDate null makes
the handler answer 409 ALREADY_SUBSCRIBED without issuing the
subscription-creation call; when every existing subscription has its
cancelledDate set (to a non-empty date string, the JS truthiness of a
set date field) or a state other than ACTIVE, creation proceeds and a
successful creation yields 201 Created. -/
theorem subscriptions_conflict_check (u : AuthenticatedUser)
    (b : CreateSubscriptionBody) (origin : String)
    (o : SubscriptionOutcomes) (stG : Nat) (acct : KillBillAccount)
    (stB : Nat) (bundles : List KillBillBundle)
    (hplan : strFalsy b.planId = false)
    (hacct : o.account.getAccount = .resp stG acct)
    (hokG : okStatus stG = true)
    (hb : o.bundles = .resp stB bundles) (hokB : okStatus stB = true) :
    ((∃ bundle ∈ bundles, ∃ sub ∈ bundle.subscriptions,
        sub.state = "ACTIVE" ∧ sub.cancelledDate = none) →
      (handleCreateSubscription (some u) (some b) origin o).1
          = .err ⟨"ALREADY_SUBSCRIBED",
              "Already subscribed to a non-cancellable plan"⟩ 409
        ∧ "POST /1.0/kb/subscriptions"
            ∉ (handleCreateSubscription (some u) (some b) origin o).2)
    ∧ ((∀ bundle ∈ bundles, ∀ sub ∈ bundle.subscriptions,
          sub.state = "ACTIVE" → ∃ d, sub.cancelledDate = some d ∧ d ≠ "") →
        ∀ (stC : Nat) (loc : Option String),
          o.createSubscription = .resp stC loc → okStatus stC = true →
        (handleCreateSubscription (some u) (some b) origin o).1
          = .created (origin ++ "/subscriptions/"
              ++ subscriptionIdFromLocation loc)) := by
  have hmain := handleCreateSubscription_after_account u b origin o stG acct
    hplan hacct hokG
  constructor
  · intro hex
    have hsome : (checkExistingSubscription o.bundles).isSome = true := by
      rw [hb]
      exact checkExisting_some_of_active stB bundles hokB hex
    obtain ⟨sub, hsub⟩ := Option.isSome_iff_exists.mp hsome
    rw [hmain, hsub]
    refine ⟨rfl, ?_⟩
    simp
  · intro hall stC loc hc hokC
    have hnone : checkExistingSubscription o.bundles = none := by
      rw [hb]
      exact checkExisting_none_of_dates stB bundles hall
    have hcr : createKillBillSubscription o.createSubscription
        = .ok (subscriptionIdFromLocation loc) := by
      simp [createKillBillSubscription, hc, hokC]
    rw [hmain, hnone, hcr]

theorem subscriptions_conflict_check_witness :
    ((handleCreateSubscription (some ⟨"user-1", some "u@example.com"⟩)
        (some ⟨some "basic-monthly"⟩) "https://api.example"
        ⟨⟨.resp 200 ⟨"acc-1", "n", "e", "user-1", "USD"⟩, .throw, .throw⟩,
          .resp 200 [⟨[⟨"sub-1", "basic-monthly", "ACTIVE", none⟩]⟩],
          .resp 201 (some "kb/1.0/kb/subscriptions/new-sub")⟩).1
      = .err ⟨"ALREADY_SUBSCRIBED",
          "Already subscribed to a non-cancellable plan"⟩ 409
      ∧ "POST /1.0/kb/subscriptions"
          ∉ (handleCreateSubscription (some ⟨"user-1", some "u@example.com"⟩)
            (some ⟨some "basic-monthly"⟩) "https://api.example"
            ⟨⟨.resp 200 ⟨"acc-1", "n", "e", "user-1", "USD"⟩, .throw, .throw⟩,
              .resp 200 [⟨[⟨"sub-1", "basic-monthly", "ACTIVE", none⟩]⟩],
              .resp 201 (some "kb/1.0/kb/subscriptions/new-sub")⟩).2)
    ∧ (handleCreateSubscription (some ⟨"user-1", some "u@example.com"⟩)
        (some ⟨some "basic-monthly"⟩) "https://api.example"
        ⟨⟨.resp 200 ⟨"acc-1", "n", "e", "user-1", "USD"⟩, .throw, .throw⟩,
          .resp 200 [⟨[⟨"sub-1", "basic-monthly", "ACTIVE",
            some "2024-05-01"⟩]⟩],
          .resp 201 (some "kb/1.0/kb/subscriptions/new-sub")⟩).1
      = .created ("https://api.example" ++ "/subscriptions/"
          ++ subscriptionIdFromLocation
            (some "kb/1.0/kb/subscriptions/new-sub")) :=
  ⟨(subscriptions_conflict_check ⟨"user-1", some "u@example.com"⟩
      ⟨some "basic-monthly"⟩ "https://api.example"
      ⟨⟨.resp 200 ⟨"acc-1", "n", "e", "user-1", "USD"⟩, .throw, .throw⟩,
        .resp 200 [⟨[⟨"sub-1", "basic-monthly", "ACTIVE", none⟩]⟩],
        .resp 201 (some "kb/1.0/kb/subscriptions/new-sub")⟩
      200 ⟨"acc-1", "n", "e", "user-1", "USD"⟩ 200
      [⟨[⟨"sub-1", "basic-monthly", "ACTIVE", none⟩]⟩]
      (by decide) rfl (by decide) rfl (by decide)).1
      (by decide),
    (subscriptions_conflict_check ⟨"user-1", some "u@example.com"⟩
      ⟨some "basic-monthly"⟩ "https://api.example"
      ⟨⟨.resp 200 ⟨"acc-1", "n", "e", "user-1", "USD"⟩, .throw, .throw⟩,
        .resp 200 [⟨[⟨"sub-1", "basic-monthly", "ACTIVE",
          some "2024-05-01"⟩]⟩],
        .resp 201 (some "kb/1.0/kb/subscriptions/new-sub")⟩
      200 ⟨"acc-1", "n", "e", "user-1", "USD"⟩ 200
      [⟨[⟨"sub-1", "basic-monthly", "ACTIVE", some "2024-05-01"⟩]⟩]
      (by decide) rfl (by decide) rfl (by decide)).2
      (by decide) 201 (some "kb/1.0/kb/subscriptions/new-sub") rfl
      (by decide)⟩

/-- C7: any failure of the existing-subscription check — the bundles
fetch throwing or returning a non-2xx status — yields the same result
as finding no existing subscription: the flow proceeds to the
subscription-creation call instead of returning an error. -/
theorem existing_check_best_effort (u : AuthenticatedUser)
    (b : CreateSubscriptionBody) (origin : String)
    (o : SubscriptionOutcomes) (stG : Nat) (acct : KillBillAccount)
    (stC : Nat) (loc : Option String)
    (hplan : strFalsy b.planId = false)
    (hacct : o.account.getAccount = .resp stG acct)
    (hokG : okStatus stG = true)
    (hfail : o.bundles = .throw
      ∨ ∃ st bundles, o.bundles = .resp st bundles ∧ okStatus st = false)
    (hc : o.createSubscription = .resp stC loc)
    (hokC : okStatus stC = true) :
    checkExistingSubscription o.bundles = none
    ∧ (handleCreateSubscription (some u) (some b) origin o).1
        = .created (origin ++ "/subscriptions/"
            ++ subscriptionIdFromLocation loc)
    ∧ "POST /1.0/kb/subscriptions"
        ∈ (handleCreateSubscription (some u) (some b) origin o).2 := by
  have hnone := checkExisting_none_of_failure o.bundles hfail
  have hcr : createKillBillSubscription o.createSubscription
      = .ok (subscriptionIdFromLocation loc) := by
    simp [createKillBillSubscription, hc, hokC]
  have hmain := handleCreateSubscription_after_account u b origin o stG acct
    hplan hacct hokG
  rw [hmain, hnone, hcr]
  refine ⟨rfl, rfl, ?_⟩
  simp

theorem existing_check_best_effort_witness :
    checkExistingSubscription
        (.resp 500 ([] : List KillBillBundle)) = none
    ∧ (handleCreateSubscription (some ⟨"user-1", some "u@example.com"⟩)
        (some ⟨some "basic-monthly"⟩) "https://api.example"
        ⟨⟨.resp 200 ⟨"acc-1", "n", "e", "user-1", "USD"⟩, .throw, .throw⟩,
          .resp 500 [],
          .resp 201 (some "kb/1.0/kb/subscriptions/new-sub")⟩).1
      = .created ("https://api.example" ++ "/subscriptions/"
          ++ subscriptionIdFromLocation
            (some "kb/1.0/kb/subscriptions/new-sub"))
    ∧ "POST /1.0/kb/subscriptions"
        ∈ (handleCreateSubscription (some ⟨"user-1", some "u@example.com"⟩)
          (some ⟨some "basic-monthly"⟩) "https://api.example"
          ⟨⟨.resp 200 ⟨"acc-1", "n", "e", "user-1", "USD"⟩, .throw, .throw⟩,
            .resp 500 [],
            .resp 201 (some "kb/1.0/kb/subscriptions/new-sub")⟩).2 :=
  existing_check_best_effort ⟨"user-1", some "u@example.com"⟩
    ⟨some "basic-monthly"⟩ "https://api.example"
    ⟨⟨.resp 200 ⟨"acc-1", "n", "e", "user-1", "USD"⟩, .throw, .throw⟩,
      .resp 500 [],
      .resp 201 (some "kb/1.0/kb/subscriptions/new-sub")⟩
    200 ⟨"acc-1", "n", "e", "user-1", "USD"⟩ 201
    (some "kb/1.0/kb/subscriptions/new-sub")
    (by decide) rfl (by decide)
    (Or.inr ⟨500, [], rfl, by decide⟩) rfl (by decide)

/-- C10: for POST /subscriptions, a body that fails to parse as JSON is
answered 500 INTERNAL_ERROR by the top-level catch, never 400
MISSING_PLAN_ID; the 400 MISSING_PLAN_ID validation error occurs
exactly when the body parsed and its planId is absent or empty. -/
theorem subscription_body_parse_behavior (u : AuthenticatedUser)
    (origin : String) (o : SubscriptionOutcomes) :
    handleCreateSubscription (some u) none origin o
      = (.err ⟨"INTERNAL_ERROR", "Failed to create subscription"⟩ 500, [])
    ∧ (∀ b : CreateSubscriptionBody, strFalsy b.planId = true →
        handleCreateSubscription (some u) (some b) origin o
          = (.err ⟨"MISSING_PLAN_ID", "planId is required"⟩ 400, []))
    ∧ (∀ body : Option CreateSubscriptionBody,
        (handleCreateSubscription (some u) body origin o).1
            = .err ⟨"MISSING_PLAN_ID", "planId is required"⟩ 400 →
        ∃ b, body = some b ∧ strFalsy b.planId = true) := by
  refine ⟨rfl, ?_, ?_⟩
  · intro b hb
    simp [handleCreateSubscription, hb]
  · intro body h
    cases body with
    | none => simp [handleCreateSubscription] at h
    | some b =>
      by_cases hpl : strFalsy b.planId = true
      · exact ⟨b, rfl, hpl⟩
      · exfalso
        rw [Bool.not_eq_true] at hpl
        rcases hacc : getOrCreateKillBillAccount o.account with ⟨r, calls⟩
        cases r with
        | error e =>
          cases e
          simp [handleCreateSubscription, hpl, hacc] at h
        | ok acct =>
          cases hch : checkExistingSubscription o.bundles with
          | some sub =>
            simp [handleCreateSubscription, hpl, hacc, hch] at h
          | none =>
            cases hcr : createKillBillSubscription o.createSubscription with
            | error e =>
              cases e
              simp [handleCreateSubscription, hpl, hacc, hch, hcr] at h
            | ok sid =>
              simp [handleCreateSubscription, hpl, hacc, hch, hcr] at h

theorem subscription_body_parse_behavior_witness :
    handleCreateSubscription (some ⟨"user-1", some "u@example.com"⟩)
        none "https://api.example"
        ⟨⟨.throw, .throw, .throw⟩, .throw, .throw⟩
      = (.err ⟨"INTERNAL_ERROR", "Failed to create subscription"⟩ 500, [])
    ∧ handleCreateSubscription (some ⟨"user-1", some "u@example.com"⟩)
        (some ⟨none⟩) "https://api.example"
        ⟨⟨.throw, .throw, .throw⟩, .throw, .throw⟩
      = (.err ⟨"MISSING_PLAN_ID", "planId is required"⟩ 400, []) :=
  have h := subscription_body_parse_behavior ⟨"user-1", some "u@example.com"⟩
    "https://api.example" ⟨⟨.throw, .throw, .throw⟩, .throw, .throw⟩
  ⟨h.1, h.2.1 ⟨none⟩ (by decide)⟩

end Kuala
